import Mathlib

/-!
Verification of the NAVO knowledge-discovery pipeline
(`query_processor.py`, `confluence_client.py`, `sharepoint_client.py`,
`adaptive_cards.py`), shallowly embedded: Python strings become `List Char`,
floats become exact rationals, network and clock effects become explicit
parameters, and exceptions become `Except` values.
-/

namespace Navo

/-- Python strings are modelled as character lists. -/
abbrev Str := List Char

/-- A search hit produced by a source client (`RawResult` of the spec):
the dictionary built in `ConfluenceClient._parse_search_results` /
`SharePointClient._parse_search_results` with the fields the query
processor reads (`title`, `url`, `content`, `source`, `last_modified`). -/
structure RawResult where
  title : Str
  url : Str
  content : Str
  source : Str
  last_modified : Str
deriving DecidableEq

/-- A display source produced by `QueryProcessor._format_sources`. -/
structure FormattedSource where
  title : Str
  url : Str
  source_type : Str
  last_updated : Str
  excerpt : Str
  days_old : Option Nat
deriving DecidableEq

/-- Characters removed by Python `str.strip()` (the whitespace that occurs
in this pipeline). -/
def isPySpace (c : Char) : Bool :=
  c = ' ' || c = '\n' || c = '\t' || c = '\r'

/-- Python `s.strip()`. -/
def pyStrip (s : Str) : Str :=
  ((s.dropWhile isPySpace).reverse.dropWhile isPySpace).reverse

/-- Python `content.replace("\n", " ")` (single-character pattern). -/
def replaceNewlines (s : Str) : Str :=
  s.map (fun c => if c = '\n' then ' ' else c)

/-! ### `QueryProcessor._prepare_context` -/

/-- The per-result content cap of `_prepare_context`:
`if len(content) > 800: content = content[:800] + "..."`. -/
def truncate800 (content : Str) : Str :=
  if content.length > 800 then content.take 800 ++ "...".data else content

/-- One `context_part` f-string of `_prepare_context`:
`f"\nDocument {i}: {title} (Source: {source})\nContent: {content}\n---"`. -/
def context_part (i : Nat) (r : RawResult) : Str :=
  "\nDocument ".data ++ (toString i).data ++ ": ".data ++ r.title
    ++ " (Source: ".data ++ r.source ++ ")\nContent: ".data
    ++ truncate800 r.content ++ "\n---".data

/-- The list `context_parts` of `_prepare_context`: one part per result of
`search_results[:5]`, enumerated from 1. -/
def context_parts (search_results : List RawResult) : List Str :=
  (List.enumFrom 1 (search_results.take 5)).map (fun p => context_part p.1 p.2)

/-- `QueryProcessor._prepare_context`: newline-joined context parts. -/
def prepare_context (search_results : List RawResult) : Str :=
  List.intercalate "\n".data (context_parts search_results)

/-! ### `QueryProcessor._format_sources` -/

/-- The excerpt computation of `_format_sources`: empty content gives an
empty excerpt; otherwise the content is newline-flattened, stripped and
capped at 150 characters plus an ellipsis. -/
def excerptOf (content : Str) : Str :=
  if content.isEmpty then []
  else
    let clean_content := pyStrip (replaceNewlines content)
    if clean_content.length > 150 then clean_content.take 150 ++ "...".data
    else clean_content

/-- One iteration of the `_format_sources` loop.  `fmtDate` stands for
`_format_date` and `daysOldOf` for the `days_old` computation; both read
the current clock, so they enter the model as parameters. -/
def format_source (fmtDate : Str → Str) (daysOldOf : Str → Option Nat)
    (r : RawResult) : FormattedSource :=
  let excerpt := excerptOf r.content
  { title := r.title
    url := r.url
    source_type := r.source
    last_updated := fmtDate r.last_modified
    excerpt := if excerpt.isEmpty then "No preview available".data else excerpt
    days_old := daysOldOf r.last_modified }

/-- `QueryProcessor._format_sources`: the appending loop is a map. -/
def format_sources (fmtDate : Str → Str) (daysOldOf : Str → Option Nat)
    (search_results : List RawResult) : List FormattedSource :=
  search_results.map (format_source fmtDate daysOldOf)

/-! ### `QueryProcessor.process_query` -/

/-- One element of the `asyncio.gather(..., return_exceptions=True)` result:
either the list a client returned or the exception it raised. -/
abbrev SearchOutcome := Except Unit (List RawResult)

/-- The merging loop of `process_query`: exceptions are logged and skipped,
lists are `extend`ed onto `all_results` in task order. -/
def merge_results (search_results : List SearchOutcome) : List RawResult :=
  search_results.foldl
    (fun all_results result =>
      match result with
      | Except.error _ => all_results
      | Except.ok l => all_results ++ l)
    []

/-- The fixed system prompt of `_generate_ai_response`. -/
def system_prompt : Str :=
  ("You are NAVO, an engineering knowledge assistant. Use only the provided "
    ++ "snippets from Confluence, SharePoint, or local files. Keep answers "
    ++ "concise and reference document titles when relevant. If the answer "
    ++ "is not present in the snippets, politely say so.").data

/-- The user prompt of `_generate_ai_response`. -/
def user_prompt (query context : Str) : Str :=
  "Question: ".data ++ query ++ "\n\nSnippets:\n".data ++ context
    ++ ("\n\nReply in 2-4 sentences. Include a short numbered list of steps "
      ++ "if it helps clarify the answer.").data

/-- The degraded answer returned when `_generate_ai_response` catches an
exception. -/
def aiFailureAnswer : Str :=
  ("I found some relevant documentation but couldn't generate a complete "
    ++ "response. Please check the source links below for more information.").data

/-- Result of `_generate_ai_response`. -/
structure AiResponse where
  answer : Str
  confidence : ℚ
deriving DecidableEq

/-- `QueryProcessor._generate_ai_response`.  The chat-completion endpoint is
the parameter `llm`, mapping the sent user prompt to either the reply
content or a raised exception; every other step is deterministic. -/
def generate_ai_response (query : Str) (search_results : List RawResult)
    (llm : Str → Except Unit Str) : AiResponse :=
  let context := prepare_context search_results
  match llm (user_prompt query context) with
  | Except.error _ => { answer := aiFailureAnswer, confidence := 0.4 }
  | Except.ok content =>
      let answer := pyStrip content
      let base_confidence : ℚ := 0.6
      let result_bonus : ℚ := min 0.3 ((search_results.length : ℚ) * 0.1)
      let context_bonus : ℚ := min 0.1 ((context.length : ℚ) / 2000)
      let confidence := min 0.95 (base_confidence + result_bonus + context_bonus)
      { answer := answer, confidence := confidence }

/-- The canned answer when no source client is enabled. -/
def noSourcesAnswer : Str :=
  ("No knowledge sources are configured. Please check your Confluence, "
    ++ "SharePoint, or local documentation settings.").data

/-- The canned answer when every search came back empty. -/
def noResultsAnswer : Str :=
  ("I couldn't find any relevant documentation for your query. Try "
    ++ "rephrasing or verify that the documents exist in Confluence, "
    ++ "SharePoint, or the local docs folder.").data

/-- The record returned by `process_query`, plus the instrumentation field
`llm_calls` counting invocations of the chat-completion endpoint
(`processing_time` is wall-clock and is not modelled). -/
structure ProcessOutput where
  answer : Str
  sources : List FormattedSource
  confidence : ℚ
  llm_calls : Nat
deriving DecidableEq

/-- `QueryProcessor.process_query`.  `search_outcomes` is the gathered
outcome of one search task per enabled client, in client order; an empty
list models `if not search_tasks`. -/
def process_query (fmtDate : Str → Str) (daysOldOf : Str → Option Nat)
    (query : Str) (search_outcomes : List SearchOutcome)
    (llm : Str → Except Unit Str) : ProcessOutput :=
  if search_outcomes.isEmpty then
    { answer := noSourcesAnswer, sources := [], confidence := 0, llm_calls := 0 }
  else
    let all_results := merge_results search_outcomes
    if all_results.isEmpty then
      { answer := noResultsAnswer, sources := [], confidence := 0, llm_calls := 0 }
    else
      let ai_response := generate_ai_response query all_results llm
      { answer := ai_response.answer
        sources := format_sources fmtDate daysOldOf (all_results.take 3)
        confidence := ai_response.confidence
        llm_calls := 1 }

/-! ### Source clients (`confluence_client.py`, `sharepoint_client.py`) -/

/-- One item of a search API response body, as consumed by a client's
`_parse_search_results` loop: `.ok r` when the per-item parsing succeeds,
`.error ()` when it raises (the exception is caught and the item skipped). -/
abbrev ParseItem := Except Unit RawResult

/-- The `_parse_search_results` loops of both clients: append each item
that parses, skip (`continue`) each item whose parsing raises. -/
def parse_search_results (items : List ParseItem) : List RawResult :=
  items.foldl
    (fun results item =>
      match item with
      | Except.ok r => results ++ [r]
      | Except.error _ => results)
    []

/-- Outcome of one HTTP search call: a response with a status code and a
parsed body, a raised `aiohttp.ClientError`, or any other raised exception. -/
inductive HttpOutcome where
  | response (status : Nat) (items : List ParseItem)
  | network_error
  | other_error

/-- The `enabled` flag a `ConfluenceClient` computes from its environment
configuration at construction. -/
structure ConfluenceClient where
  enabled : Bool
deriving DecidableEq

/-- `ConfluenceClient.search`: disabled clients return `[]`; a 200
response is parsed; 401, 403, any other status, a network error or any
other exception all return `[]`. -/
def ConfluenceClient.search (self : ConfluenceClient) (http : HttpOutcome) :
    List RawResult :=
  if !self.enabled then []
  else
    match http with
    | HttpOutcome.response status items =>
        if status = 200 then parse_search_results items
        else if status = 401 then []
        else if status = 403 then []
        else []
    | HttpOutcome.network_error => []
    | HttpOutcome.other_error => []

/-- The `enabled` flag a `SharePointClient` computes from its environment
configuration at construction. -/
structure SharePointClient where
  enabled : Bool
deriving DecidableEq

/-- `SharePointClient.search`: disabled clients return `[]`; a failed
`_get_access_token` (`None`) returns `[]`; then as for Confluence, only a
200 response is parsed and every failure returns `[]`. -/
def SharePointClient.search (self : SharePointClient)
    (access_token : Option Str) (http : HttpOutcome) : List RawResult :=
  if !self.enabled then []
  else
    match access_token with
    | none => []
    | some _ =>
        match http with
        | HttpOutcome.response status items =>
            if status = 200 then parse_search_results items
            else if status = 401 then []
            else if status = 403 then []
            else []
        | HttpOutcome.network_error => []
        | HttpOutcome.other_error => []

/-- A search call outcome that is not a 200 response: non-200 status,
network error, or any other exception. -/
def http_failed : HttpOutcome → Prop
  | HttpOutcome.response status _ => status ≠ 200
  | HttpOutcome.network_error => True
  | HttpOutcome.other_error => True

/-! ### Card formatter (`adaptive_cards.py`) -/

/-- Python `int()` on a rational: truncation toward zero. -/
def pyInt (q : ℚ) : ℤ :=
  if 0 ≤ q then ⌊q⌋ else -⌊-q⌋

/-- The Teams text colors used by `create_response_card`. -/
inductive CardColor where
  | good
  | warning
  | attention
deriving DecidableEq

/-- One element of the `source_items` list built by `create_response_card`:
a source container or the spacing container inserted between sources. -/
inductive SourceItem where
  | block (title excerpt source_type last_updated url : Str)
  | separator
deriving DecidableEq

/-- Whether a card item is a source container (not a spacing separator). -/
def SourceItem.isBlock : SourceItem → Bool
  | SourceItem.block _ _ _ _ _ => true
  | SourceItem.separator => false

/-- The source container built for one formatted source. -/
def source_block (s : FormattedSource) : SourceItem :=
  SourceItem.block s.title s.excerpt s.source_type s.last_updated s.url

/-- The `source_items` loop over `sources[:3]`: a block per source and a
separator after every block except the last. -/
def source_items_loop : List FormattedSource → List SourceItem
  | [] => []
  | [s] => [source_block s]
  | s :: rest => source_block s :: SourceItem.separator :: source_items_loop rest

/-- `source_items` of `create_response_card`. -/
def source_items_of (sources : List FormattedSource) : List SourceItem :=
  source_items_loop (sources.take 3)

/-- The components of the adaptive card built by `create_response_card`
that the verified properties read: the header confidence percentage and its
color, the rendered source items, the `Sources Found:` fact value
(`str(len(sources))`, kept as the number), and whether the
`View All Sources` action is added (`len(sources) > 3`). -/
structure ResponseCard where
  query : Str
  answer : Str
  confidence_pct : ℤ
  confidence_color : CardColor
  source_items : List SourceItem
  sources_found : Nat
  has_view_all : Bool
deriving DecidableEq

/-- `create_response_card`:
`confidence_pct = int(confidence * 100) if confidence > 0 else 89` and
`confidence_color = "good" if pct >= 80 else "warning" if pct >= 60 else
"attention"`. -/
def create_response_card (query answer : Str)
    (sources : List FormattedSource) (confidence : ℚ) : ResponseCard :=
  let confidence_pct : ℤ := if confidence > 0 then pyInt (confidence * 100) else 89
  let confidence_color :=
    if confidence_pct ≥ 80 then CardColor.good
    else if confidence_pct ≥ 60 then CardColor.warning
    else CardColor.attention
  { query := query
    answer := answer
    confidence_pct := confidence_pct
    confidence_color := confidence_color
    source_items := source_items_of sources
    sources_found := sources.length
    has_view_all := sources.length > 3 }

/-- Number of source blocks (not separators) a card renders. -/
def ResponseCard.sourceBlockCount (card : ResponseCard) : Nat :=
  (card.source_items.filter SourceItem.isBlock).length

/-! ### Spec-modelled relevance score (for the re-ranking comparison)

The repository's `process_query` pipeline contains no re-ranking
subroutine, so the §4.3 scorer is modelled from the spec's words to compare
the claimed ordering with the code's actual ordering. -/

/-- Auxiliary word splitter: accumulate non-space characters, emit a word
at each space. -/
def split_words_aux : Str → Str → List Str
  | [], acc => if acc.isEmpty then [] else [acc.reverse]
  | c :: cs, acc =>
      if c = ' ' then
        if acc.isEmpty then split_words_aux cs []
        else acc.reverse :: split_words_aux cs []
      else split_words_aux cs (c :: acc)

/-- Split a string into space-separated keywords. -/
def split_words (s : Str) : List Str := split_words_aux s []

/-- Number of query keywords that occur among the text's keywords. -/
def keyword_overlap (query_words text_words : List Str) : Nat :=
  (query_words.filter (fun w => text_words.contains w)).length

/-- Modelled from the spec: the §4.3 relevance score of `process_query`
step 7 is absent from the code; following the spec's words it is keyword
overlap of the query with the document, with title matches boosted (here:
weighted twice) above body matches. -/
def spec_relevance_score (query : Str) (r : RawResult) : Nat :=
  2 * keyword_overlap (split_words query) (split_words r.title)
    + keyword_overlap (split_words query) (split_words r.content)

/-- The confidence `process_query` computes as a function of the merged
result count and the built-context length: `0.0` on the zero-result
short-circuit, the `_generate_ai_response` formula otherwise.  The C8
theorem proves the connection to `process_query`. -/
def pipeline_confidence (result_count context_len : Nat) : ℚ :=
  if result_count = 0 then 0
  else min 0.95 (0.6 + min 0.3 ((result_count : ℚ) * 0.1)
    + min 0.1 ((context_len : ℚ) / 2000))

/-- Concrete fixture: a search hit with no keyword in common with the
query `"alpha"`. -/
def cexR1 : RawResult :=
  { title := "zzz".data, url := "u1".data, content := "zzz".data
    source := "Confluence".data, last_modified := [] }

/-- Concrete fixture: a search hit whose title and body both match the
query `"alpha"`. -/
def cexR2 : RawResult :=
  { title := "alpha".data, url := "u2".data, content := "alpha".data
    source := "Confluence".data, last_modified := [] }

/-- Concrete fixture: a formatted display source. -/
def cexSource : FormattedSource :=
  { title := "t".data, url := "u".data, source_type := "Confluence".data
    last_updated := "Today".data, excerpt := "e".data, days_old := none }

/-! ## Theorems -/

/-- The merging loop with a general accumulator equals the accumulator
followed by the concatenation of the successful result lists in task
order. -/
theorem merge_results_foldl_eq (outcomes : List SearchOutcome) :
    ∀ acc : List RawResult,
      outcomes.foldl
        (fun all_results result =>
          match result with
          | Except.error _ => all_results
          | Except.ok l => all_results ++ l) acc
      = acc ++ (outcomes.filterMap Except.toOption).flatten := by
  induction outcomes with
  | nil => intro acc; simp
  | cons o rest ih =>
      intro acc
      cases o with
      | error e => simpa [Except.toOption] using ih acc
      | ok l => simp [Except.toOption, ih, List.append_assoc]

/-- The merged result set is exactly the concatenation, in task order, of
the result lists of the non-raising searches. -/
theorem merge_results_eq_join (outcomes : List SearchOutcome) :
    merge_results outcomes = (outcomes.filterMap Except.toOption).flatten := by
  simpa using merge_results_foldl_eq outcomes []

/-- If every outcome is a successful empty search, the merge is empty. -/
theorem merge_results_all_empty {outcomes : List SearchOutcome}
    (h : ∀ o ∈ outcomes, o = Except.ok ([] : List RawResult)) :
    merge_results outcomes = [] := by
  rw [merge_results_eq_join]
  rw [List.flatten_eq_nil_iff]
  intro x hx
  rcases List.mem_filterMap.mp hx with ⟨o, ho, hparse⟩
  rw [h o ho] at hparse
  simpa [Except.toOption] using hparse.symm

/-- C5: one client raising an exception does not affect the others—the
merged result set of `process_query` is the concatenation, in client
order, of the result lists returned by the non-raising clients, and a
raising client contributes nothing. -/
theorem search_fault_isolation :
    (∀ outcomes : List SearchOutcome,
        merge_results outcomes = (outcomes.filterMap Except.toOption).flatten)
    ∧ ∀ (pre post : List SearchOutcome) (e : Unit),
        merge_results (pre ++ Except.error e :: post)
          = merge_results pre ++ merge_results post := by
  refine ⟨merge_results_eq_join, ?_⟩
  intro pre post e
  simp [merge_results_eq_join, Except.toOption]

/-- C1: when at least one client is enabled and every enabled client's
search returns the empty list, `process_query` answers with confidence 0.0
and no sources, and the chat-completion endpoint is never invoked. -/
theorem no_results_short_circuits_llm (fmtDate : Str → Str)
    (daysOldOf : Str → Option Nat) (query : Str)
    (outcomes : List SearchOutcome) (llm : Str → Except Unit Str)
    (hne : outcomes ≠ [])
    (hempty : ∀ o ∈ outcomes, o = Except.ok ([] : List RawResult)) :
    (process_query fmtDate daysOldOf query outcomes llm).confidence = 0
    ∧ (process_query fmtDate daysOldOf query outcomes llm).sources = []
    ∧ (process_query fmtDate daysOldOf query outcomes llm).llm_calls = 0 := by
  have hmerge := merge_results_all_empty hempty
  simp [process_query, hne, hmerge]

/-- Witness for C1 at a single enabled client returning `[]`. -/
theorem no_results_short_circuits_llm_witness :
    (process_query (fun s => s) (fun _ => none) "q".data
        [Except.ok ([] : List RawResult)] (fun _ => Except.ok "a".data)).confidence = 0
    ∧ (process_query (fun s => s) (fun _ => none) "q".data
        [Except.ok ([] : List RawResult)] (fun _ => Except.ok "a".data)).sources = []
    ∧ (process_query (fun s => s) (fun _ => none) "q".data
        [Except.ok ([] : List RawResult)] (fun _ => Except.ok "a".data)).llm_calls = 0 :=
  no_results_short_circuits_llm _ _ _ _ _ (by simp) (by simp)

/-- C2 amended: for every non-empty merged result list, the returned
sources are the first `min(3, n)` merged results in original fetch order,
each formatted for display, so the list has length at most 3; no relevance
re-ranking is applied. -/
theorem sources_first_three_fetch_order (fmtDate : Str → Str)
    (daysOldOf : Str → Option Nat) (query : Str)
    (outcomes : List SearchOutcome) (llm : Str → Except Unit Str)
    (hne : outcomes ≠ []) (hres : merge_results outcomes ≠ []) :
    (process_query fmtDate daysOldOf query outcomes llm).sources
      = ((merge_results outcomes).take 3).map (format_source fmtDate daysOldOf)
    ∧ (process_query fmtDate daysOldOf query outcomes llm).sources.length ≤ 3 := by
  have h1 : (process_query fmtDate daysOldOf query outcomes llm).sources
      = ((merge_results outcomes).take 3).map (format_source fmtDate daysOldOf) := by
    simp [process_query, hne, hres, format_sources]
  refine ⟨h1, ?_⟩
  rw [h1]
  simp only [List.length_map, List.length_take]
  exact min_le_left _ _

/-- Witness for the amended C2 at one client returning two results. -/
theorem sources_first_three_fetch_order_witness :
    (process_query (fun s => s) (fun _ => none) "alpha".data
        [Except.ok [cexR1, cexR2]] (fun _ => Except.ok "a".data)).sources
      = ((merge_results [Except.ok [cexR1, cexR2]]).take 3).map
          (format_source (fun s => s) (fun _ => none))
    ∧ (process_query (fun s => s) (fun _ => none) "alpha".data
        [Except.ok [cexR1, cexR2]] (fun _ => Except.ok "a".data)).sources.length ≤ 3 :=
  sources_first_three_fetch_order _ _ _ _ _ (by simp) (by decide)

/-- C2 counterexample: with the merged list `[cexR1, cexR2]` for the query
`"alpha"`, `process_query` returns the sources in fetch order
(`cexR1` first) although the second result scores strictly higher under
the spec's §4.3 keyword-overlap re-ranking, so the sources are not ordered
by descending relevance score. -/
theorem sources_not_relevance_ranked_cex :
    ((process_query (fun s => s) (fun _ => none) "alpha".data
        [Except.ok [cexR1, cexR2]] (fun _ => Except.ok "a".data)).sources).map
        FormattedSource.title = ["zzz".data, "alpha".data]
    ∧ ¬ spec_relevance_score "alpha".data cexR1
        ≥ spec_relevance_score "alpha".data cexR2 := by
  decide

/-- C3: whenever the chat-completion call succeeds, the returned confidence
is `min(0.95, 0.6 + min(0.3, 0.1 * result_count) + min(0.1, context_len /
2000))`, with `result_count` the number of merged results and
`context_len` the length of the built context string. -/
theorem ai_confidence_formula (query : Str) (search_results : List RawResult)
    (llm : Str → Except Unit Str) (content : Str)
    (hok : llm (user_prompt query (prepare_context search_results))
      = Except.ok content) :
    (generate_ai_response query search_results llm).confidence
      = min 0.95 (0.6 + min 0.3 (0.1 * (search_results.length : ℚ))
          + min 0.1 (((prepare_context search_results).length : ℚ) / 2000)) := by
  simp [generate_ai_response, hok, mul_comm]

/-- Witness for C3 at one merged result and a succeeding completion. -/
theorem ai_confidence_formula_witness :
    (generate_ai_response "q".data [cexR1] (fun _ => Except.ok "a".data)).confidence
      = min 0.95 (0.6 + min 0.3 (0.1 * (([cexR1] : List RawResult).length : ℚ))
          + min 0.1 (((prepare_context [cexR1]).length : ℚ) / 2000)) :=
  ai_confidence_formula "q".data [cexR1] _ "a".data rfl

/-- C4: if the chat-completion call raises, `process_query` still returns
an answer—the canned degraded message at confidence 0.4 (within the claimed
0.4-0.5)—and the sources still carry the top-3 merged results from the
successful searches. -/
theorem llm_failure_degraded_answer (fmtDate : Str → Str)
    (daysOldOf : Str → Option Nat) (query : Str)
    (outcomes : List SearchOutcome) (llm : Str → Except Unit Str)
    (hne : outcomes ≠ []) (hres : merge_results outcomes ≠ [])
    (herr : llm (user_prompt query (prepare_context (merge_results outcomes)))
      = Except.error ()) :
    (process_query fmtDate daysOldOf query outcomes llm).answer = aiFailureAnswer
    ∧ (process_query fmtDate daysOldOf query outcomes llm).confidence = 0.4
    ∧ (0.4 : ℚ) ≤ (process_query fmtDate daysOldOf query outcomes llm).confidence
    ∧ (process_query fmtDate daysOldOf query outcomes llm).confidence ≤ 0.5
    ∧ (process_query fmtDate daysOldOf query outcomes llm).sources
        = ((merge_results outcomes).take 3).map (format_source fmtDate daysOldOf) := by
  have hconf : (process_query fmtDate daysOldOf query outcomes llm).confidence = 0.4 := by
    simp [process_query, hne, hres, generate_ai_response, herr]
  refine ⟨?_, hconf, by rw [hconf], by rw [hconf]; norm_num, ?_⟩
  · simp [process_query, hne, hres, generate_ai_response, herr]
  · simp [process_query, hne, hres, format_sources]

/-- Witness for C4 at one client returning one result and a raising
completion call. -/
theorem llm_failure_degraded_answer_witness :
    (process_query (fun s => s) (fun _ => none) "q".data
        [Except.ok [cexR1]] (fun _ => Except.error ())).answer = aiFailureAnswer
    ∧ (process_query (fun s => s) (fun _ => none) "q".data
        [Except.ok [cexR1]] (fun _ => Except.error ())).confidence = 0.4
    ∧ (0.4 : ℚ) ≤ (process_query (fun s => s) (fun _ => none) "q".data
        [Except.ok [cexR1]] (fun _ => Except.error ())).confidence
    ∧ (process_query (fun s => s) (fun _ => none) "q".data
        [Except.ok [cexR1]] (fun _ => Except.error ())).confidence ≤ 0.5
    ∧ (process_query (fun s => s) (fun _ => none) "q".data
        [Except.ok [cexR1]] (fun _ => Except.error ())).sources
        = ((merge_results [Except.ok [cexR1]]).take 3).map
            (format_source (fun s => s) (fun _ => none)) :=
  llm_failure_degraded_answer _ _ _ _ _ (by simp) (by decide) rfl

/-- C6: a source client's `search` never raises—it is a total function of
the modelled failure modes—and on every failure (disabled configuration, a
failed token acquisition, a non-200 status, a network error, any other
exception) it returns the empty list. -/
theorem client_search_never_raises :
    ∀ (c : ConfluenceClient) (sp : SharePointClient) (tok : Option Str)
      (h1 h2 : HttpOutcome),
      (c.enabled = false → c.search h1 = [])
      ∧ (http_failed h1 → c.search h1 = [])
      ∧ (sp.enabled = false → sp.search tok h2 = [])
      ∧ (tok = none → sp.search tok h2 = [])
      ∧ (http_failed h2 → sp.search tok h2 = []) := by
  intro c sp tok h1 h2
  refine ⟨?_, ?_, ?_, ?_, ?_⟩
  · intro h
    simp [ConfluenceClient.search, h]
  · intro h
    rcases c with ⟨e⟩
    cases e
    · simp [ConfluenceClient.search]
    · cases h1 with
      | response s items =>
          have hs : s ≠ 200 := h
          simp only [ConfluenceClient.search, Bool.not_true, Bool.false_eq_true,
            if_false, if_neg hs]
          split <;> [rfl; skip]
          split <;> rfl
      | network_error => rfl
      | other_error => rfl
  · intro h
    simp [SharePointClient.search, h]
  · intro h
    subst h
    rcases sp with ⟨e⟩
    cases e <;> rfl
  · intro h
    rcases sp with ⟨e⟩
    cases e
    · simp [SharePointClient.search]
    · cases tok with
      | none => rfl
      | some t =>
          cases h2 with
          | response s items =>
              have hs : s ≠ 200 := h
              simp only [SharePointClient.search, Bool.not_true, Bool.false_eq_true,
                if_false, if_neg hs]
              split <;> [rfl; skip]
              split <;> rfl
          | network_error => rfl
          | other_error => rfl

/-- Witness for C6: a disabled Confluence client with a network error, and
an enabled SharePoint client with a failed token acquisition and a 500
response. -/
theorem client_search_never_raises_witness :
    ConfluenceClient.search ⟨false⟩ HttpOutcome.network_error = []
    ∧ SharePointClient.search ⟨true⟩ none (HttpOutcome.response 500 []) = []
    ∧ SharePointClient.search ⟨true⟩ (some "tok".data)
        (HttpOutcome.response 500 []) = [] :=
  ⟨(client_search_never_raises ⟨false⟩ ⟨true⟩ none HttpOutcome.network_error
      (HttpOutcome.response 500 [])).1 rfl,
   (client_search_never_raises ⟨false⟩ ⟨true⟩ none HttpOutcome.network_error
      (HttpOutcome.response 500 [])).2.2.2.1 rfl,
   (client_search_never_raises ⟨false⟩ ⟨true⟩ (some "tok".data)
      HttpOutcome.network_error (HttpOutcome.response 500 [])).2.2.2.2
      (by simp [http_failed])⟩

/-- C7 amended: the prompt context is built from exactly the first
`min(5, n)` results in fetch order; each included result contributes an
excerpt of at most 803 characters (800 content characters plus the
three-character ellipsis); there is no further character-budget dropping:
the context never depends on results beyond the first five. -/
theorem prepare_context_top5_and_excerpt_cap :
    ∀ results : List RawResult,
      prepare_context results = prepare_context (results.take 5)
      ∧ (context_parts results).length = min 5 results.length
      ∧ ∀ r : RawResult, (truncate800 r.content).length ≤ 803 := by
  intro results
  refine ⟨?_, ?_, ?_⟩
  · simp [prepare_context, context_parts, List.take_take]
  · simp [context_parts]
  · intro r
    unfold truncate800
    split
    · simp only [List.length_append, List.length_take, List.length_cons,
        List.length_nil]
      omega
    · next hgt =>
        simp only [gt_iff_lt, not_lt] at hgt
        omega

/-- C7 counterexample: a result whose content has 801 characters
contributes an excerpt of 803 characters to the context, exceeding the
claimed 800-character cap. -/
theorem excerpt_exceeds_800_cex :
    (truncate800 (List.replicate 801 'a')).length = 803
    ∧ ¬ (truncate800 (List.replicate 801 'a')).length ≤ 800 := by
  have hlen : (List.replicate 801 'a').length = 801 := List.length_replicate 801 'a'
  have heq : truncate800 (List.replicate 801 'a')
      = (List.replicate 801 'a').take 800 ++ "...".data := by
    unfold truncate800
    rw [if_pos]
    rw [hlen]
    norm_num
  have h : (truncate800 (List.replicate 801 'a')).length = 803 := by
    rw [heq, List.length_append, List.length_take, hlen]
    rfl
  exact ⟨h, by omega⟩

/-- The `_generate_ai_response` success-path confidence is nonnegative. -/
theorem ai_success_confidence_nonneg (n c : Nat) :
    0 ≤ min (0.95 : ℚ) (0.6 + min 0.3 ((n : ℚ) * 0.1) + min 0.1 ((c : ℚ) / 2000)) := by
  have h1 : (0 : ℚ) ≤ min 0.3 ((n : ℚ) * 0.1) := le_min (by norm_num) (by positivity)
  have h2 : (0 : ℚ) ≤ min 0.1 ((c : ℚ) / 2000) := le_min (by norm_num) (by positivity)
  exact le_min (by norm_num) (by linarith)

/-- `pipeline_confidence` is nonnegative. -/
theorem pipeline_confidence_nonneg (n c : Nat) : 0 ≤ pipeline_confidence n c := by
  unfold pipeline_confidence
  split
  · exact le_refl 0
  · exact ai_success_confidence_nonneg n c

/-- C8: the confidence returned by `process_query` always lies in
`[0, 0.95]`; the confidence as a function of result count (context length
held fixed) is monotonically non-decreasing, across the zero-result path
and the non-empty path; and on completion-success runs `process_query`
computes exactly that function of the merged result count and built
context length. -/
theorem confidence_bounds_and_monotone :
    (∀ (fmtDate : Str → Str) (daysOldOf : Str → Option Nat) (query : Str)
        (outcomes : List SearchOutcome) (llm : Str → Except Unit Str),
        0 ≤ (process_query fmtDate daysOldOf query outcomes llm).confidence
        ∧ (process_query fmtDate daysOldOf query outcomes llm).confidence ≤ 0.95)
    ∧ (∀ n m c : Nat, n ≤ m →
        pipeline_confidence n c ≤ pipeline_confidence m c)
    ∧ (∀ (fmtDate : Str → Str) (daysOldOf : Str → Option Nat) (query : Str)
        (outcomes : List SearchOutcome) (llm : Str → Except Unit Str)
        (content : Str),
        outcomes ≠ [] →
        llm (user_prompt query (prepare_context (merge_results outcomes)))
          = Except.ok content →
        (process_query fmtDate daysOldOf query outcomes llm).confidence
          = pipeline_confidence (merge_results outcomes).length
              (prepare_context (merge_results outcomes)).length) := by
  refine ⟨?_, ?_, ?_⟩
  · intro fmtDate daysOldOf query outcomes llm
    by_cases hne : outcomes.isEmpty
    · simp [process_query, hne]
      norm_num
    · by_cases hres : (merge_results outcomes).isEmpty
      · simp [process_query, hne, hres]
        norm_num
      · cases hllm : llm (user_prompt query (prepare_context (merge_results outcomes))) with
        | error e =>
            simp [process_query, hne, hres, generate_ai_response, hllm]
            norm_num
        | ok content =>
            simp only [process_query, hne, Bool.false_eq_true, if_false,
              hres, generate_ai_response, hllm]
            exact ⟨ai_success_confidence_nonneg _ _, min_le_left _ _⟩
  · intro n m c hnm
    by_cases hn : n = 0
    · rw [hn]
      have h0 : pipeline_confidence 0 c = 0 := by simp [pipeline_confidence]
      rw [h0]
      exact pipeline_confidence_nonneg m c
    · have hm : m ≠ 0 := by omega
      unfold pipeline_confidence
      rw [if_neg hn, if_neg hm]
      have hcast : (n : ℚ) ≤ (m : ℚ) := by exact_mod_cast hnm
      gcongr
  · intro fmtDate daysOldOf query outcomes llm content hne hok
    by_cases hres : (merge_results outcomes).isEmpty
    · have hnil : merge_results outcomes = [] := by
        simpa using hres
      simp [process_query, hne, hres, pipeline_confidence, hnil]
    · have hlen : (merge_results outcomes).length ≠ 0 := by
        simpa [List.isEmpty_iff, List.length_eq_zero] using hres
      simp only [process_query, hne, List.isEmpty_iff, if_neg hne, hres,
        Bool.false_eq_true, if_false, generate_ai_response, hok,
        pipeline_confidence, if_neg hlen]

/-- Witness for C8 at concrete runs and counts. -/
theorem confidence_bounds_and_monotone_witness :
    (0 ≤ (process_query (fun s => s) (fun _ => none) "q".data
        [Except.ok [cexR1]] (fun _ => Except.ok "a".data)).confidence
      ∧ (process_query (fun s => s) (fun _ => none) "q".data
        [Except.ok [cexR1]] (fun _ => Except.ok "a".data)).confidence ≤ 0.95)
    ∧ pipeline_confidence 1 10 ≤ pipeline_confidence 2 10
    ∧ (process_query (fun s => s) (fun _ => none) "q".data
        [Except.ok [cexR1]] (fun _ => Except.ok "a".data)).confidence
        = pipeline_confidence (merge_results [Except.ok [cexR1]]).length
            (prepare_context (merge_results [Except.ok [cexR1]])).length :=
  ⟨confidence_bounds_and_monotone.1 _ _ _ _ _,
   confidence_bounds_and_monotone.2.1 1 2 10 (by norm_num),
   confidence_bounds_and_monotone.2.2 _ _ _ _ _ "a".data (by simp) rfl⟩

/-- The `source_items` loop renders exactly one block per listed source. -/
theorem source_items_loop_block_count (l : List FormattedSource) :
    ((source_items_loop l).filter SourceItem.isBlock).length = l.length := by
  induction l with
  | nil => rfl
  | cons s rest ih =>
      cases rest with
      | nil => rfl
      | cons t ts =>
          simp only [source_items_loop, List.filter_cons, source_block,
            SourceItem.isBlock, List.length_cons, if_true, if_false,
            Bool.false_eq_true, reduceIte] at ih ⊢
          omega

/-- C9 amended: the card's declared `Sources Found:` fact is
`len(Answer.sources)` (which equals `min(3, len)` exactly when
`len <= 3`, as for every pipeline-produced Answer), and the card renders
at most 3 source blocks (`min(3, len)` of them). -/
theorem card_sources_found_and_blocks (query answer : Str)
    (sources : List FormattedSource) (confidence : ℚ) :
    (create_response_card query answer sources confidence).sources_found
      = sources.length
    ∧ (create_response_card query answer sources confidence).sourceBlockCount
        = min 3 sources.length
    ∧ (create_response_card query answer sources confidence).sourceBlockCount ≤ 3
    ∧ (sources.length ≤ 3 →
        (create_response_card query answer sources confidence).sources_found
          = min 3 sources.length) := by
  have hb : (create_response_card query answer sources confidence).sourceBlockCount
      = min 3 sources.length := by
    show ((source_items_of sources).filter SourceItem.isBlock).length
      = min 3 sources.length
    rw [source_items_of, source_items_loop_block_count, List.length_take]
  refine ⟨rfl, hb, ?_, ?_⟩
  · rw [hb]
    exact min_le_left _ _
  · intro h
    show sources.length = min 3 sources.length
    omega

/-- Witness for the amended C9 at a two-source card. -/
theorem card_sources_found_and_blocks_witness :
    (create_response_card "q".data "a".data [cexSource, cexSource] 0.9).sources_found
      = ([cexSource, cexSource] : List FormattedSource).length
    ∧ (create_response_card "q".data "a".data [cexSource, cexSource] 0.9).sourceBlockCount
        = min 3 ([cexSource, cexSource] : List FormattedSource).length
    ∧ (create_response_card "q".data "a".data [cexSource, cexSource] 0.9).sourceBlockCount ≤ 3
    ∧ (create_response_card "q".data "a".data [cexSource, cexSource] 0.9).sources_found
        = min 3 ([cexSource, cexSource] : List FormattedSource).length :=
  ⟨(card_sources_found_and_blocks _ _ _ _).1,
   (card_sources_found_and_blocks _ _ _ _).2.1,
   (card_sources_found_and_blocks _ _ _ _).2.2.1,
   (card_sources_found_and_blocks _ _ _ _).2.2.2 (by norm_num)⟩

/-- C9 counterexample: a card formatted from four sources declares
`Sources Found: 4`, not `min(3, 4) = 3` (the card still renders only 3
source blocks; the declared count is the raw length). -/
theorem card_sources_found_not_min_cex :
    ¬ ((create_response_card "q".data "a".data
          [cexSource, cexSource, cexSource, cexSource] (0.9 : ℚ)).sources_found
        = min 3 ([cexSource, cexSource, cexSource, cexSource]
            : List FormattedSource).length) := by
  decide

/-- `pyInt` of a nonpositive rational is nonpositive. -/
theorem pyInt_nonpos {q : ℚ} (h : q ≤ 0) : pyInt q ≤ 0 := by
  unfold pyInt
  rcases lt_or_eq_of_le h with hl | he
  · rw [if_neg (not_le.mpr hl)]
    have h0 : (0 : ℚ) ≤ -q := by linarith
    have := Int.floor_nonneg.mpr h0
    omega
  · rw [he]
    norm_num

/-- C10: whenever `confidence <= 0` (including the confidence-0.0
no-results Answer), the card displays 89% in the `good` (High) color, and
89 is not `int(confidence * 100)`; the displayed percentage equals
`int(confidence * 100)` exactly when `confidence > 0`. -/
theorem zero_confidence_displays_89 (query answer : Str)
    (sources : List FormattedSource) (confidence : ℚ) :
    (confidence ≤ 0 →
      (create_response_card query answer sources confidence).confidence_pct = 89
      ∧ (create_response_card query answer sources confidence).confidence_color
          = CardColor.good
      ∧ pyInt (confidence * 100) ≠ 89)
    ∧ (0 < confidence →
      (create_response_card query answer sources confidence).confidence_pct
        = pyInt (confidence * 100)) := by
  constructor
  · intro h
    have hng : ¬ confidence > 0 := not_lt.mpr h
    have hmul : confidence * 100 ≤ 0 := by nlinarith
    have hint := pyInt_nonpos hmul
    refine ⟨?_, ?_, by omega⟩
    · simp [create_response_card, hng]
    · simp [create_response_card, hng]
  · intro h
    simp [create_response_card, h]

/-- Witness for C10 at confidence 0 (the no-results Answer). -/
theorem zero_confidence_displays_89_witness :
    ((create_response_card "q".data "a".data [] (0 : ℚ)).confidence_pct = 89
      ∧ (create_response_card "q".data "a".data [] (0 : ℚ)).confidence_color
          = CardColor.good
      ∧ pyInt ((0 : ℚ) * 100) ≠ 89)
    ∧ (create_response_card "q".data "a".data [] (0.5 : ℚ)).confidence_pct
        = pyInt ((0.5 : ℚ) * 100) :=
  ⟨(zero_confidence_displays_89 "q".data "a".data [] 0).1 le_rfl,
   (zero_confidence_displays_89 "q".data "a".data [] 0.5).2 (by norm_num)⟩

end Navo
